import Mathlib

/-!
Shallow embedding of the baggage-handling simulator
(`sim/airport.py` and `sim/solver.py`).

Modelling conventions:

* Python `dict`s are insertion-ordered association lists with unique keys
  (`aget` reads the first binding, `aset`/`aincr` update the first binding in
  place or append at the end, `aremove` drops the key's binding — since keys
  are unique, filtering out the key is the same as removing its single
  binding).  `defaultdict(dict)` read access that inserts a missing row is
  modelled explicitly in `BaggageMatrix.getitem`.
* `datetime` values are rational numbers of MINUTES (e.g. 12:00 is 720);
  `timedelta(hours=h)` adds `h * 60` minutes and `timedelta(seconds=s)` adds
  `s / 60` minutes.  All time comparisons in the covered scenarios have
  margins of whole minutes, far above the sub-microsecond float/rational
  discrepancy of the source, so exact rational arithmetic in this unit is a
  faithful model of the comparisons.
* Distances and speeds are rationals.  The source computes the distance
  matrix once from gate coordinates with `math.dist` (float Euclidean
  distance); all simulation code reads distances only through
  `Airport.get_distance`, so the `Airport` model carries the gate-number list
  and the distance matrix directly.  In the end-to-end scenario the two gates
  are at (0,10) and (0,0), whose Euclidean distance is exactly 10.
* Python exceptions are modelled with `Except PyError`; a raised exception
  aborts the computation (the caller observes the raise, intermediate
  partially-mutated state is not observed by any covered property).
* Bag counts are naturals (the source only ever adds positive counts).
-/

/-- The Python exception kinds the embedded code can raise. -/
inductive PyError where
  | typeError
  | attrError
  | keyError
  | indexError
  | zeroDivisionError
deriving DecidableEq, Repr

/-- First binding of key `k` in an association list (Python `d[k]` / `d.get(k)`). -/
def aget {κ α : Type} [DecidableEq κ] (d : List (κ × α)) (k : κ) : Option α :=
  match d with
  | [] => none
  | p :: rest => if p.1 = k then some p.2 else aget rest k

/-- `d[k] = v` on a Python dict: update the existing binding in place,
otherwise append the new binding at the end (insertion order). -/
def aset {κ α : Type} [DecidableEq κ] (d : List (κ × α)) (k : κ) (v : α) : List (κ × α) :=
  match d with
  | [] => [(k, v)]
  | p :: rest => if p.1 = k then (p.1, v) :: rest else p :: aset rest k v

/-- `d[k] += v` (creating the binding at the end if absent), as in `Handler.take`. -/
def aincr {κ : Type} [DecidableEq κ] (d : List (κ × Nat)) (k : κ) (v : Nat) : List (κ × Nat) :=
  match d with
  | [] => [(k, v)]
  | p :: rest => if p.1 = k then (p.1, p.2 + v) :: rest else p :: aincr rest k v

/-- `d.pop(k)` state effect on a key-unique dict: drop the binding of `k`. -/
def aremove {κ α : Type} [DecidableEq κ] (d : List (κ × α)) (k : κ) : List (κ × α) :=
  d.filter (fun p => decide (p.1 ≠ k))

/-- Python dict with string keys. -/
abbrev Dict (α : Type) : Type := List (String × α)

/-- `sum(d.values())`. -/
def dsum (d : Dict Nat) : Nat :=
  d.foldl (fun a p => a + p.2) 0

/-- `sim/airport.py::Flight` — times are rational minutes. -/
structure Flight where
  number : String
  gate_number : String
  scheduled : ℚ
  actual : ℚ
  baggages : Option (Dict Nat) := none
deriving DecidableEq, Repr

/-- `sim/airport.py::Handler` (defaults as in the dataclass). -/
structure Handler where
  name : String
  capacity : Nat := 100
  load_time : Nat := 600
  unload_time : Nat := 300
  speed : ℚ := 60
  baggages : Option (Dict Nat) := none
  route : Option (List String) := none
deriving DecidableEq, Repr

/-- `Handler.n_bags`: `sum(self.baggages.values())` raises `AttributeError`
when `baggages` is `None`. -/
def Handler.n_bags (h : Handler) : Except PyError Nat :=
  match h.baggages with
  | none => .error .attrError
  | some b => .ok (dsum b)

/-- `Handler.take`: initialize the held-bag dict if needed, then add `bags`
to the entry of `flight_number` (creating it if absent). -/
def Handler.take (h : Handler) (flight_number : String) (bags : Nat) : Handler :=
  { h with baggages := some (aincr (h.baggages.getD []) flight_number bags) }

/-- `sim/airport.py::Airport`, reduced to what the simulation reads: the gate
numbers (in list order) and the precomputed distance matrix. -/
structure Airport where
  gates : List String
  distance_matrix : List (List ℚ)
deriving DecidableEq, Repr

/-- `Airport.get_gate_idx`: index of the first gate with the given number,
`None` when absent. -/
def Airport.get_gate_idx (a : Airport) (gate_number : String) : Option Nat :=
  a.gates.findIdx? (fun g => g == gate_number)

/-- `Airport.get_distance`: `self.distance_matrix[idx1][idx2]`.  A missing
gate makes `get_gate_idx` return `None`, and indexing a list with `None`
raises `TypeError`; an out-of-range index raises `IndexError`. -/
def Airport.get_distance (a : Airport) (gate1 gate2 : String) : Except PyError ℚ :=
  match a.get_gate_idx gate1, a.get_gate_idx gate2 with
  | some i, some j =>
    match a.distance_matrix[i]? with
    | none => .error .indexError
    | some row =>
      match row[j]? with
      | none => .error .indexError
      | some d => .ok d
  | _, _ => .error .typeError

/-- `sim/airport.py::Schedule`. -/
structure Schedule where
  flights : List Flight
deriving DecidableEq, Repr

/-- `Schedule.__getitem__`: first flight with the given number, else `None`. -/
def Schedule.getitem (s : Schedule) (flight_number : String) : Option Flight :=
  s.flights.find? (fun f => f.number == flight_number)

/-- Stable insertion of a flight after all earlier flights with `actual ≤`. -/
def insertByActual (f : Flight) : List Flight → List Flight
  | [] => [f]
  | g :: rest => if g.actual ≤ f.actual then g :: insertByActual f rest else f :: g :: rest

/-- `Schedule.sort_by_actual`: Python `sorted` is a stable ascending sort;
stable sorts agree extensionally, so a stable insertion sort models it. -/
def Schedule.sort_by_actual (s : Schedule) : List Flight :=
  s.flights.foldl (fun acc f => insertByActual f acc) []

/-- `sim/airport.py::BaggageMatrix`: the `defaultdict(dict)` of outstanding
(origin, destination) bag counts plus the total recorded at construction. -/
structure BaggageMatrix where
  matrix : Dict (Dict Nat)
  initial_baggages : Nat
deriving DecidableEq, Repr

/-- `BaggageMatrix.fill_matrix`: `matrix[flight.number][to_flight] = baggages`
for every flight with obligations (flights with `baggages is None` are
skipped; `defaultdict` access creates the row on first write). -/
def BaggageMatrix.fill_matrix (flights : List Flight) : Dict (Dict Nat) :=
  flights.foldl
    (fun m f =>
      match f.baggages with
      | none => m
      | some bs => bs.foldl (fun mx p => aset mx f.number (aset ((aget mx f.number).getD []) p.1 p.2)) m)
    []

/-- `BaggageMatrix.__len__`: total outstanding bag count. -/
def BaggageMatrix.len (bm : BaggageMatrix) : Nat :=
  bm.matrix.foldl (fun a p => a + dsum p.2) 0

/-- Total of a raw matrix (used to record `initial_baggages`). -/
def matTotal (m : Dict (Dict Nat)) : Nat :=
  m.foldl (fun a p => a + dsum p.2) 0

/-- `BaggageMatrix.__init__`: fill the matrix and record `len(self)`. -/
def BaggageMatrix.ofFlights (flights : List Flight) : BaggageMatrix :=
  let m := BaggageMatrix.fill_matrix flights
  { matrix := m, initial_baggages := matTotal m }

/-- `BaggageMatrix.remove_entry`: the source runs
`self.matrix.pop(flight_from, flight_to)`.  Python `dict.pop(key, default)`
removes the key's ENTIRE binding (here: the whole row of `flight_from`) and
treats the second argument only as a fallback RETURN value, discarded by the
caller — so `flight_to` never affects the state, and no error is ever raised.
The only call site (`unload_plane`) even passes the bag count as
`flight_to`, hence the `Nat` type of the second parameter. -/
def BaggageMatrix.remove_entry (bm : BaggageMatrix) (flight_from : String)
    (flight_to : Nat) : BaggageMatrix :=
  { bm with matrix := aremove bm.matrix flight_from }

/-- `BaggageMatrix.__getitem__`: `{key: val for key, val in
self.matrix[flight_number].items()}`.  `self.matrix` is a `defaultdict`, so
reading a missing row inserts an empty row (returned matrix) and the
comprehension returns a fresh copy of the row (second component). -/
def BaggageMatrix.getitem (bm : BaggageMatrix) (flight_number : String) :
    BaggageMatrix × Dict Nat :=
  match aget bm.matrix flight_number with
  | some row => (bm, row)
  | none => ({ bm with matrix := bm.matrix ++ [(flight_number, [])] }, [])

/-- `sim/airport.py::AirportSim` state. -/
structure AirportSim where
  airport : Airport
  schedule : Schedule
  baggage_matrix : BaggageMatrix
  handlers : List Handler
deriving DecidableEq, Repr

/-- `AirportSim.__init__` from airport, schedule and an explicit handler
list: the baggage matrix is built from the schedule's flights. -/
def AirportSim.ofParts (airport : Airport) (schedule : Schedule)
    (handlers : List Handler) : AirportSim :=
  { airport := airport
    schedule := schedule
    baggage_matrix := BaggageMatrix.ofFlights schedule.flights
    handlers := handlers }

/-- Keys of a route mapping.  The successful paths only ever store and look
up NAME strings, but a Python dict could in principle be keyed by any
hashable value, so the key type also admits a Handler value: `routes[handler]
= None` in `SequentialSolver.solve` ATTEMPTS such an insertion — and raises
`TypeError`, because `Handler` is a non-frozen `eq` dataclass and therefore
unhashable.  Python `==` never identifies a string with a `Handler`
dataclass, which the two constructors model. -/
inductive RouteKey where
  | name (s : String)
  | handlerObj (h : Handler)
deriving DecidableEq, Repr

/-- A solver result: insertion-ordered dict from route keys to
`Optional[List[str]]` routes. -/
abbrev Routes : Type := List (RouteKey × Option (List String))

/-- `AirportSim.update_routes`: `handler.route = routes.get(handler.name)` —
a missing key silently yields `None` (no validation, no error). -/
def AirportSim.update_routes (sim : AirportSim) (routes : Routes) : AirportSim :=
  { sim with
    handlers := sim.handlers.map
      (fun h => { h with route := (aget routes (RouteKey.name h.name)).join }) }

/-- Python list membership (`x in l`), by `==` on the elements in order. -/
def pyIn (x : String) : List String → Bool
  | [] => false
  | y :: rest => if y = x then true else pyIn x rest

/-- One iteration of the `unload_plane` loop over the snapshot: destinations
appearing ANYWHERE in the handler's route are taken and trigger
`remove_entry` (which drops the whole origin row); others are skipped. -/
def pickupStep (flight : String) (route : List String)
    (st : BaggageMatrix × Handler) (p : String × Nat) : BaggageMatrix × Handler :=
  if pyIn p.1 route then (st.1.remove_entry flight p.2, st.2.take p.1 p.2) else st

/-- `AirportSim.unload_plane`, as a function of the baggage matrix and the
handler it mutates.  `flight_number not in handler.route` raises `TypeError`
when the route is `None`; the loop iterates over the fresh snapshot returned
by `BaggageMatrix.__getitem__` (safe while the matrix itself is mutated). -/
def unload_plane (bm : BaggageMatrix) (handler : Handler) (flight : String) :
    Except PyError (BaggageMatrix × Handler) :=
  match handler.route with
  | none => .error .typeError
  | some route =>
    let pr := bm.getitem flight
    .ok (pr.2.foldl (pickupStep flight route) (pr.1, handler))

/-- Per-stop state of the `run_routes` inner loop: running clock, previous
stop's flight, the (shared) baggage matrix and the handler being replayed. -/
structure StepState where
  time : Option ℚ
  prev_flight : Option Flight
  bm : BaggageMatrix
  handler : Handler
deriving DecidableEq, Repr

/-- One stop of the `run_routes` inner loop.  `schedule[cur]` returns `None`
for an unknown flight and every branch then dereferences an attribute of
`None` (`AttributeError`).  At a connection-only stop reached strictly early,
`handler.baggages.pop(cur)` raises `AttributeError` when `baggages` is
`None` and `KeyError` when the entry is absent (no default is passed).
A zero speed would raise `ZeroDivisionError` in the travel-time division. -/
def runStep (airport : Airport) (schedule : Schedule) (st : StepState)
    (cur : String) : Except PyError StepState :=
  match schedule.getitem cur with
  | none => .error .attrError
  | some cur_flight =>
    let time0 : ℚ := match st.time with | none => cur_flight.actual | some t => t
    let timeRes : Except PyError ℚ :=
      match st.prev_flight with
      | none => .ok time0
      | some prev =>
        match airport.get_distance prev.gate_number cur_flight.gate_number with
        | .error e => .error e
        | .ok distance_leg =>
          if st.handler.speed = 0 then .error .zeroDivisionError
          else .ok (time0 + distance_leg / st.handler.speed * 60)
    match timeRes with
    | .error e => .error e
    | .ok time1 =>
      match cur_flight.baggages with
      | none =>
        if time1 < cur_flight.actual then
          match st.handler.baggages with
          | none => .error .attrError
          | some bgs =>
            match aget bgs cur with
            | none => .error .keyError
            | some _ =>
              .ok { time := some time1, prev_flight := some cur_flight, bm := st.bm,
                    handler := { st.handler with baggages := some (aremove bgs cur) } }
        else
          .ok { time := some time1, prev_flight := some cur_flight, bm := st.bm,
                handler := st.handler }
      | some _ =>
        let time2 : ℚ := if time1 < cur_flight.actual then cur_flight.actual else time1
        match unload_plane st.bm st.handler cur with
        | .error e => .error e
        | .ok (bm2, h2) =>
          .ok { time := some (time2 + (st.handler.unload_time : ℚ) / 60),
                prev_flight := some cur_flight, bm := bm2, handler := h2 }

/-- Replay of one handler's route (`for cur in handler.route`): iterating a
`None` route raises `TypeError`. -/
def run_handler (airport : Airport) (schedule : Schedule) (bm : BaggageMatrix)
    (h : Handler) : Except PyError (BaggageMatrix × Handler) :=
  match h.route with
  | none => .error .typeError
  | some route => do
    let st ← route.foldlM (runStep airport schedule)
      { time := none, prev_flight := none, bm := bm, handler := h }
    .ok (st.bm, st.handler)

/-- `AirportSim.run_routes`: replay every handler in fleet order against the
shared baggage matrix. -/
def AirportSim.run_routes (sim : AirportSim) : Except PyError AirportSim := do
  let res ← sim.handlers.foldlM
    (fun (acc : BaggageMatrix × List Handler) h => do
      let r ← run_handler sim.airport sim.schedule acc.1 h
      .ok (r.1, acc.2 ++ [r.2]))
    (sim.baggage_matrix, ([] : List Handler))
  .ok { sim with baggage_matrix := res.1, handlers := res.2 }

/-- `AirportSim.compute_missing_bags`: sum the remaining ledger total and
every handler's `n_bags` (which raises first if some `baggages` is `None`),
then divide by `initial_baggages` — an unguarded division that raises
`ZeroDivisionError` when the initial total is zero. -/
def AirportSim.compute_missing_bags (sim : AirportSim) : Except PyError ℚ :=
  match sim.handlers.foldlM (fun acc h => (Handler.n_bags h).map (acc + ·))
      sim.baggage_matrix.len with
  | .error e => .error e
  | .ok bags =>
    if sim.baggage_matrix.initial_baggages = 0 then .error .zeroDivisionError
    else .ok ((bags : ℚ) / (sim.baggage_matrix.initial_baggages : ℚ))

/-- `sim/solver.py::SequentialSolver.solve`: pop the LAST handler and route
it through every flight sorted by actual time, keyed by its name
(`handlers.pop()` on an empty fleet raises `IndexError`).  The loop over the
remaining handlers then runs `routes[handler] = None` — keyed by the Handler
OBJECT, not its name — and a `Handler` instance is UNHASHABLE (a dataclass
with `eq=True`, `frozen=False` has `__hash__ = None`), so the first such
insertion raises `TypeError`: with two or more handlers, `solve` never
returns a mapping at all. -/
def SequentialSolver.solve (sim : AirportSim) : Except PyError Routes :=
  match sim.handlers.getLast? with
  | none => .error .indexError
  | some last =>
    let routes0 : Routes :=
      [(RouteKey.name last.name, some ((sim.schedule.sort_by_actual).map Flight.number))]
    match sim.handlers.dropLast with
    | [] => .ok routes0
    | _ :: _ => .error .typeError

/-- The `sim/__main__.py` pipeline: solve, install routes, replay, metric. -/
def pipeline (sim : AirportSim) : Except PyError ℚ := do
  let routes ← SequentialSolver.solve sim
  let sim1 := sim.update_routes routes
  let sim2 ← sim1.run_routes
  sim2.compute_missing_bags

/-- Sum of held bags over a fleet, counting an uninitialized (`None`)
held-bag mapping as zero — the observer used to state conservation. -/
def heldSum (hs : List Handler) : Nat :=
  hs.foldl (fun a h => a + dsum (h.baggages.getD [])) 0

deriving instance DecidableEq for Except

set_option maxRecDepth 4000

/-- Held-bag count of one handler for destination `d` (0 when the mapping is
uninitialized or has no entry) — observer used to state pickup effects. -/
def heldOf (h : Handler) (d : String) : Nat :=
  (aget (h.baggages.getD []) d).getD 0

/-- The cumulative effect of the `unload_plane` loop on the handler: every
snapshot entry whose destination occurs anywhere in the route is taken. -/
def takeAll (h : Handler) (l : Dict Nat) (route : List String) : Handler :=
  match l with
  | [] => h
  | p :: rest => takeAll (if pyIn p.1 route then h.take p.1 p.2 else h) rest route

/-- Total bag count of the snapshot entries with destination `d` that occur
anywhere in the route (what `unload_plane` adds to the handler for `d`). -/
def pickedSum (l : Dict Nat) (route : List String) (d : String) : Nat :=
  match l with
  | [] => 0
  | p :: rest =>
    (if pyIn p.1 route = true ∧ p.1 = d then p.2 else 0) + pickedSum rest route d

/- Concrete scenario data (times in minutes: 720 = 12:00, 840 = 14:00). -/

/-- Two gates 10 units apart, as in `sim/__main__.py` (gate 1 at (0,10),
gate 2 at (0,0): Euclidean distance exactly 10). -/
def airC9 : Airport := { gates := ["1", "2"], distance_matrix := [[0, 10], [10, 0]] }

/-- Flight A: departs gate 1 at 12:00 carrying 10 bags for flight B. -/
def fA9 : Flight := { number := "A", gate_number := "1", scheduled := 720, actual := 720,
                      baggages := some [("B", 10)] }

/-- Flight B: connection target at gate 2, actual 14:00. -/
def fB9 : Flight := { number := "B", gate_number := "2", scheduled := 840, actual := 840 }

/-- One handler with the dataclass defaults (speed 60, unload 5 min). -/
def hC9 : Handler := { name := "h" }

/-- The end-to-end scenario simulation. -/
def simC9 : AirportSim := AirportSim.ofParts airC9 { flights := [fA9, fB9] } [hC9]

/-- Flight B moved to 12:10 (missed scenario). -/
def fB9late : Flight := { fB9 with scheduled := 730, actual := 730 }

/-- The missed scenario simulation. -/
def simC9late : AirportSim := AirportSim.ofParts airC9 { flights := [fA9, fB9late] } [hC9]

/-- The handler with the route the baseline solver assigns in scenario C9. -/
def h9r : Handler := { hC9 with route := some ["A", "B"] }

/-- Flight A carrying bags for B (5, on the route) and C (7, not on any
route): the conservation-violating pickup row. -/
def fA1 : Flight := { number := "A", gate_number := "1", scheduled := 720, actual := 720,
                      baggages := some [("B", 5), ("C", 7)] }

/-- Connection flight B for the conservation scenario. -/
def fB1 : Flight := { number := "B", gate_number := "2", scheduled := 840, actual := 840 }

/-- Handler routed A then B (flight C is not on the route). -/
def hC1 : Handler := { name := "h", route := some ["A", "B"] }

/-- Conservation failing input: 12 initial bags, 7 of them to a flight that
is not on the only route. -/
def simC1 : AirportSim := AirportSim.ofParts airC9 { flights := [fA1, fB1] } [hC1]

/-- A fleet with a single idle handler (`route = None`). -/
def simC4 : AirportSim := AirportSim.ofParts { gates := [], distance_matrix := [] }
  { flights := [] } [{ name := "h" }]

/-- Pickup stop with an empty obligations dict (`baggages = {}`). -/
def fA5 : Flight := { number := "A", gate_number := "1", scheduled := 100, actual := 100,
                      baggages := some [] }

/-- Connection-only stop reached strictly early by the handler. -/
def fB5 : Flight := { number := "B", gate_number := "1", scheduled := 990, actual := 990 }

/-- Handler with an initialized but empty held-bag dict, routed A then B. -/
def hC5 : Handler := { name := "h", baggages := some [], route := some ["A", "B"] }

/-- Failing input for the "removal is a no-op" clause: the handler reaches
connection stop B at 105 < 990 holding no entry for B. -/
def simC5 : AirportSim := AirportSim.ofParts { gates := ["1"], distance_matrix := [[0]] }
  { flights := [fA5, fB5] } [hC5]

/-- Zero-initial-total simulation (the only flight has `baggages = {}`). -/
def simC6 : AirportSim := AirportSim.ofParts { gates := [], distance_matrix := [] }
  { flights := [{ number := "A", gate_number := "1", scheduled := 0, actual := 0,
                  baggages := some [] }] }
  [{ name := "h", baggages := some [] }]

/-- A second zero-initial-total simulation (two handlers, no flights). -/
def simC6w : AirportSim := AirportSim.ofParts { gates := [], distance_matrix := [] }
  { flights := [] }
  [{ name := "a", baggages := some [] }, { name := "b", baggages := some [] }]

/-- First handler of a two-handler fleet (the solver's attempt to use it as
a dict key raises, since `Handler` is unhashable). -/
def h70 : Handler := { name := "0" }

/-- Second handler of a two-handler fleet (popped by the solver). -/
def h71 : Handler := { name := "1" }

/-- A flight with the later actual time (input order deliberately unsorted). -/
def fX : Flight := { number := "X", gate_number := "1", scheduled := 200, actual := 200 }

/-- A flight with the earlier actual time. -/
def fY : Flight := { number := "Y", gate_number := "1", scheduled := 100, actual := 100 }

/-- Two handlers, two flights: input for the baseline-solver key bug. -/
def simC7 : AirportSim := AirportSim.ofParts { gates := ["1"], distance_matrix := [[0]] }
  { flights := [fX, fY] } [h70, h71]

/-- Flight A with bags for B (3) and D (4); B sits EARLIER in the route. -/
def fA3 : Flight := { number := "A", gate_number := "g", scheduled := 0, actual := 0,
                      baggages := some [("B", 3), ("D", 4)] }

/-- The ledger built from `fA3` alone (initial total 7). -/
def bmC3 : BaggageMatrix := BaggageMatrix.ofFlights [fA3]

/-- Handler whose route visits B before A, so no destination of A lies
later than A in the route. -/
def hC3 : Handler := { name := "h", route := some ["B", "A"] }

/-- Ledger with one origin row holding two destination entries. -/
def bmC2 : BaggageMatrix := BaggageMatrix.ofFlights [fA1]

/-- The single handler of the planner-contract scenario. -/
def hC8 : Handler := { name := "h" }

/-- Simulation whose planner mapping will lack an entry for `hC8`. -/
def simC8 : AirportSim := AirportSim.ofParts { gates := [], distance_matrix := [] }
  { flights := [] } [hC8]

/-- Connection-only flight for the `runStep` witness. -/
def fW : Flight := { number := "B", gate_number := "g", scheduled := 9, actual := 9 }

/-- One-flight schedule for the `runStep` witness. -/
def SW : Schedule := { flights := [fW] }

/-- Handler holding no entry for flight B (initialized empty dict). -/
def hW : Handler := { name := "w", baggages := some [] }

/-- Empty ledger for the `runStep` witness. -/
def bmW : BaggageMatrix := { matrix := [], initial_baggages := 0 }

/-- Empty airport for the `runStep` witness. -/
def AW : Airport := { gates := [], distance_matrix := [] }

/- Helper lemmas. -/

/-- Removing a key leaves no binding for it. -/
theorem aget_aremove_self {κ α : Type} [DecidableEq κ] (d : List (κ × α)) (k : κ) :
    aget (aremove d k) k = none := by
  induction d with
  | nil => simp [aremove, aget]
  | cons p rest ih =>
    by_cases hp : p.1 = k
    · simpa [aremove, List.filter, hp] using ih
    · simpa [aremove, List.filter, hp, aget] using ih

/-- Removal is idempotent. -/
theorem aremove_aremove {κ α : Type} [DecidableEq κ] (d : List (κ × α)) (k : κ) :
    aremove (aremove d k) k = aremove d k := by
  simp [aremove, List.filter_filter]

/-- `aincr` adds `v` to the binding of `k` and changes nothing else. -/
theorem aget_aincr {κ : Type} [DecidableEq κ] (b : List (κ × Nat)) (k : κ) (v : Nat) (d : κ) :
    (aget (aincr b k v) d).getD 0 = (aget b d).getD 0 + (if k = d then v else 0) := by
  induction b with
  | nil =>
    by_cases hk : k = d <;> simp [aincr, aget, hk]
  | cons p rest ih =>
    by_cases hp : p.1 = k
    · rw [aincr, if_pos hp]
      by_cases hd : p.1 = d
      · have hkd : k = d := by rw [← hp]; exact hd
        simp [aget, hd, hkd]
      · have hkd : ¬ k = d := by rw [← hp]; exact hd
        simp [aget, hd, hkd]
    · rw [aincr, if_neg hp]
      by_cases hd : p.1 = d
      · have hkd : ¬ k = d := fun hkd => hp (by rw [hd, hkd])
        simp [aget, hd, hkd]
      · simp [aget, hd, ih]

/-- `Handler.take` adds exactly to the destination it is given. -/
theorem heldOf_take (h : Handler) (k : String) (v : Nat) (d : String) :
    heldOf (h.take k v) d = heldOf h d + (if k = d then v else 0) := by
  simp [heldOf, Handler.take, aget_aincr]

/-- `takeAll` adds, per destination, exactly the on-route snapshot counts. -/
theorem heldOf_takeAll (l : Dict Nat) (route : List String) (h : Handler) (d : String) :
    heldOf (takeAll h l route) d = heldOf h d + pickedSum l route d := by
  induction l generalizing h with
  | nil => simp [takeAll, pickedSum]
  | cons p rest ih =>
    cases hc : pyIn p.1 route with
    | true =>
      rw [takeAll, if_pos hc, ih, heldOf_take, pickedSum]
      by_cases hd : p.1 = d
      · rw [hd] at hc
        simp [hc, hd]
        omega
      · simp [hc, hd]
    | false =>
      rw [takeAll, if_neg (by simp [hc]), ih, pickedSum]
      simp [hc]

/-- Closed form of the `unload_plane` loop: the handler takes every on-route
snapshot entry, and the origin row is popped as soon as at least one snapshot
destination is on the route (the bag-count argument of `remove_entry` is
irrelevant to the state). -/
theorem foldl_pickupStep (flight : String) (route : List String) (l : Dict Nat)
    (bm0 : BaggageMatrix) (h0 : Handler) :
    l.foldl (pickupStep flight route) (bm0, h0) =
      ((if l.any fun p => pyIn p.1 route then
          { bm0 with matrix := aremove bm0.matrix flight } else bm0),
       takeAll h0 l route) := by
  induction l generalizing bm0 h0 with
  | nil => simp [takeAll]
  | cons p rest ih =>
    cases hc : pyIn p.1 route with
    | true =>
      have hps : pickupStep flight route (bm0, h0) p =
          ({ bm0 with matrix := aremove bm0.matrix flight }, h0.take p.1 p.2) := by
        rw [pickupStep, if_pos hc]
        rfl
      have hany : ((p :: rest).any fun q => pyIn q.1 route) = true := by
        simp only [List.any_cons, hc, Bool.true_or]
      rw [List.foldl_cons, hps, ih, hany, if_pos rfl, takeAll, if_pos hc]
      cases hr : rest.any fun q => pyIn q.1 route with
      | true => simp [aremove_aremove]
      | false => simp
    | false =>
      have hnc : ¬ (pyIn p.1 route = true) := by simp [hc]
      have hps : pickupStep flight route (bm0, h0) p = (bm0, h0) := by
        rw [pickupStep, if_neg hnc]
      have hany : ((p :: rest).any fun q => pyIn q.1 route) =
          (rest.any fun q => pyIn q.1 route) := by
        simp only [List.any_cons, hc, Bool.false_or]
      rw [List.foldl_cons, hps, ih, hany, takeAll, if_neg hnc]

/-- When every handler's held-bag dict is initialized, summing `n_bags` over
the fleet succeeds. -/
theorem heldFold_ok (hs : List Handler) (acc : Nat)
    (hb : ∀ x ∈ hs, x.baggages.isSome) :
    ∃ n, hs.foldlM (fun a x => (Handler.n_bags x).map (a + ·)) acc = Except.ok n := by
  induction hs generalizing acc with
  | nil => exact ⟨acc, rfl⟩
  | cons x rest ih =>
    obtain ⟨b, hbx⟩ := Option.isSome_iff_exists.mp (hb x (by simp))
    have hnb : Handler.n_bags x = .ok (dsum b) := by simp [Handler.n_bags, hbx]
    obtain ⟨n, hn⟩ := ih (acc + dsum b) (fun y hy => hb y (by simp [hy]))
    refine ⟨n, ?_⟩
    rw [List.foldlM_cons, hnb]
    exact hn

/- Claim theorems. -/

/-- Claim C1 (refuted on the code — the bug): baggage conservation fails.
On `simC1` the flight A row holds 5 bags for B (on the route) and 7 for C
(off the route); picking up B triggers `remove_entry`, whose
`dict.pop(flight_from, default)` slip discards the WHOLE row, so the 7 bags
for C vanish from the ledger without entering any handler.  After
`run_routes` the remaining ledger total plus all held bags is 0 while the
initial total is 12, violating the claimed invariant (and `run_routes`
reaches this state without error). -/
theorem C1_conservation_violated :
    (AirportSim.run_routes simC1).map
      (fun s => (BaggageMatrix.len s.baggage_matrix + heldSum s.handlers,
                 s.baggage_matrix.initial_baggages)) = .ok (0, 12) ∧
    (0 : Nat) ≠ 12 := by
  with_unfolding_all decide

/-- Claim C2 (refuted on the code — the bug): settlement does not target one
entry.  `remove_entry "A"` on a row with entries for B and C removes BOTH
(the whole origin row), because the source runs `self.matrix.pop(flight_from,
flight_to)` where the second argument is `dict.pop`'s DEFAULT return value;
and `remove_entry` on an origin with no outstanding entry is a silent no-op,
not an "unknown entry" failure. -/
theorem C2_remove_entry_bulk_removal :
    BaggageMatrix.remove_entry bmC2 "A" 5 = { matrix := [], initial_baggages := 12 } ∧
    aget (BaggageMatrix.remove_entry bmC2 "A" 5).matrix "A" = none ∧
    BaggageMatrix.remove_entry bmC2 "X" 0 = bmC2 := by
  with_unfolding_all decide

/-- Claim C3 counterexample: with route ["B", "A"], no destination of the
pickup stop A lies later than A in the route, so the claim predicts no
pickup and an unchanged ledger; the code instead picks up B (which occurs
EARLIER in the route) and pops the whole A row, so the never-picked entry
for D does not remain outstanding either. -/
theorem C3_counterexample :
    unload_plane bmC3 hC3 "A" ≠ .ok (bmC3, hC3) ∧
    unload_plane bmC3 hC3 "A" =
      .ok ({ matrix := [], initial_baggages := 7 },
           { hC3 with baggages := some [("B", 3)] }) := by
  with_unfolding_all decide

/-- Claim C3 (amended): at a pickup stop the handler picks up exactly those
snapshot destinations that appear ANYWHERE in its route (`takeAll`, with the
per-destination count `pickedSum`), and as soon as at least one destination
is picked up the flight's ENTIRE ledger row is removed — destinations not
picked up do not remain outstanding; with no on-route destination the ledger
is left as the read left it. -/
theorem C3_pickup_membership_anywhere (bm : BaggageMatrix) (h : Handler)
    (route : List String) (flight : String) (hr : h.route = some route) :
    unload_plane bm h flight =
      .ok (if ((bm.getitem flight).2.any fun p => pyIn p.1 route) then
             { (bm.getitem flight).1 with
               matrix := aremove (bm.getitem flight).1.matrix flight }
           else (bm.getitem flight).1,
           takeAll h (bm.getitem flight).2 route) ∧
    (∀ d, heldOf (takeAll h (bm.getitem flight).2 route) d =
          heldOf h d + pickedSum (bm.getitem flight).2 route d) ∧
    aget (aremove (bm.getitem flight).1.matrix flight) flight = none := by
  refine ⟨?_, fun d => heldOf_takeAll _ _ _ _, aget_aremove_self _ _⟩
  simp [unload_plane, hr, foldl_pickupStep]

/-- Claim C3 witness: the amended characterization applied to the concrete
route ["B", "A"] at pickup stop A, read off at destination B. -/
theorem C3_pickup_membership_anywhere_witness :
    heldOf (takeAll hC3 (bmC3.getitem "A").2 ["B", "A"]) "B" =
      heldOf hC3 "B" + pickedSum (bmC3.getitem "A").2 ["B", "A"] "B" :=
  (C3_pickup_membership_anywhere bmC3 hC3 ["B", "A"] "A" rfl).2.1 "B"

/-- Claim C4 (refuted on the code — the bug): an idle handler is not a
no-op stop sequence; `run_routes` iterates `handler.route` unconditionally,
and iterating `None` raises `TypeError`, so the replay fails on the very
first idle handler (here: a fleet of one handler with no route). -/
theorem C4_idle_route_crashes_run_routes :
    AirportSim.run_routes simC4 = .error .typeError := by
  with_unfolding_all decide

/-- Claim C5 counterexample: in `simC5` the handler finishes the empty
pickup at A at time 105 and reaches connection-only stop B strictly before
its actual time 990 while holding NO entry for B; the claim says the removal
is then a no-op, but `handler.baggages.pop(cur)` has no default and the
whole replay fails with `KeyError`. -/
theorem C5_counterexample :
    AirportSim.run_routes simC5 = .error .keyError := by
  with_unfolding_all decide

/-- Claim C5 (amended): at a connection-only stop (flight found, `baggages`
is `None`), arriving strictly early removes the held-bag entry when it
exists (and it is absent afterwards); arriving at or after the actual time
leaves handler and ledger untouched; but arriving strictly early with NO
held entry FAILS — `AttributeError` when the held-bag dict was never
initialized, `KeyError` when the entry is missing — instead of being a
no-op. -/
theorem C5_connection_stop_behavior (A : Airport) (S : Schedule)
    (bm : BaggageMatrix) (h : Handler) (t : ℚ) (cur : String) (cf : Flight)
    (hlook : S.getitem cur = some cf) (hb : cf.baggages = none) :
    (∀ bgs n, t < cf.actual → h.baggages = some bgs → aget bgs cur = some n →
       runStep A S { time := some t, prev_flight := none, bm := bm, handler := h } cur =
         .ok { time := some t, prev_flight := some cf, bm := bm,
               handler := { h with baggages := some (aremove bgs cur) } } ∧
       aget (aremove bgs cur) cur = none) ∧
    (¬ t < cf.actual →
       runStep A S { time := some t, prev_flight := none, bm := bm, handler := h } cur =
         .ok { time := some t, prev_flight := some cf, bm := bm, handler := h }) ∧
    (t < cf.actual → h.baggages = none →
       runStep A S { time := some t, prev_flight := none, bm := bm, handler := h } cur =
         .error .attrError) ∧
    (∀ bgs, t < cf.actual → h.baggages = some bgs → aget bgs cur = none →
       runStep A S { time := some t, prev_flight := none, bm := bm, handler := h } cur =
         .error .keyError) := by
  refine ⟨?_, ?_, ?_, ?_⟩
  · intro bgs n hlt hbg hget
    refine ⟨?_, aget_aremove_self _ _⟩
    simp [runStep, hlook, hb, hlt, hbg, hget]
  · intro hlt
    simp [runStep, hlook, hb, hlt]
  · intro hlt hbg
    simp [runStep, hlook, hb, hlt, hbg]
  · intro bgs hlt hbg hget
    simp [runStep, hlook, hb, hlt, hbg, hget]

/-- Claim C5 witness: a handler with an initialized but empty held-bag dict
arriving at connection stop B at time 5 < 9 fails with `KeyError`. -/
theorem C5_connection_stop_behavior_witness :
    runStep AW SW { time := some 5, prev_flight := none, bm := bmW, handler := hW } "B" =
      .error .keyError :=
  (C5_connection_stop_behavior AW SW bmW hW 5 "B" fW rfl rfl).2.2.2 []
    (by with_unfolding_all decide) rfl rfl

/-- Claim C6 counterexample: with a zero initial total (`simC6`),
`compute_missing_bags` raises the division fault (`ZeroDivisionError`)
instead of reporting an explicit "no data" condition. -/
theorem C6_counterexample :
    AirportSim.compute_missing_bags simC6 = .error .zeroDivisionError := by
  with_unfolding_all decide

/-- Claim C6 (amended): whenever the initial total recorded at construction
is zero and every handler's held-bag dict is initialized (so the summation
loop itself does not fault first), `compute_missing_bags` fails with the
unguarded `ZeroDivisionError` — there is no "no data" result. -/
theorem C6_zero_initial_division_fault (sim : AirportSim)
    (h0 : sim.baggage_matrix.initial_baggages = 0)
    (hb : ∀ h ∈ sim.handlers, h.baggages.isSome) :
    sim.compute_missing_bags = .error .zeroDivisionError := by
  obtain ⟨n, hn⟩ := heldFold_ok sim.handlers sim.baggage_matrix.len hb
  simp [AirportSim.compute_missing_bags, hn, h0]

/-- Claim C6 witness: the amended statement applied to a concrete
two-handler, zero-obligation simulation. -/
theorem C6_zero_initial_division_fault_witness :
    AirportSim.compute_missing_bags simC6w = .error .zeroDivisionError :=
  C6_zero_initial_division_fault simC6w rfl (by decide)

/-- Claim C7 (refuted on the code — the bug): on a two-handler fleet the
baseline solver never produces the claimed mapping at all.  After keying the
popped last handler's route under its name, the loop over the remaining
handlers runs `routes[handler] = None` — keying by the Handler OBJECT
instead of `handler.name` — and a `Handler` (non-frozen `eq` dataclass) is
unhashable, so that insertion raises `TypeError`.  `solve` therefore crashes
on `simC7` instead of returning a mapping covering every handler's name,
contradicting the solver docstring "the keys of the dictionary are the
handlers' names"; only on a one-handler fleet (as in `simC9`) does it
return a mapping, which then does carry the lone handler's name. -/
theorem C7_solve_unhashable_handler_key :
    SequentialSolver.solve simC7 = .error .typeError ∧
    SequentialSolver.solve simC9 = .ok [(RouteKey.name "h", some ["A", "B"])] := by
  with_unfolding_all decide

/-- Claim C8 counterexample: installing an EMPTY planner mapping on a
one-handler fleet raises nothing — `update_routes` silently assigns the
handler a `None` route — and the violation only surfaces afterwards, as a
`TypeError` in the middle of `run_routes`. -/
theorem C8_counterexample :
    (AirportSim.update_routes simC8 []).handlers.map Handler.route = [none] ∧
    AirportSim.run_routes (AirportSim.update_routes simC8 []) = .error .typeError := by
  with_unfolding_all decide

/-- Claim C8 (amended): when the planner mapping has no entry for a handler
(here: the first handler of the fleet), `update_routes` detects nothing and
silently installs an absent route on that handler; the contract violation is
discovered only during `run_routes`, which fails with `TypeError`. -/
theorem C8_missing_entry_silent_until_replay (sim : AirportSim) (routes : Routes)
    (h0 : Handler) (rest : List Handler)
    (hh : sim.handlers = h0 :: rest)
    (hr : aget routes (RouteKey.name h0.name) = none) :
    (sim.update_routes routes).handlers.head? = some { h0 with route := none } ∧
    (sim.update_routes routes).run_routes = .error .typeError := by
  have hupd : (sim.update_routes routes).handlers =
      { h0 with route := none } ::
        rest.map (fun h => { h with route := (aget routes (RouteKey.name h.name)).join }) := by
    simp [AirportSim.update_routes, hh, hr]
  constructor
  · rw [hupd]
    rfl
  · simp [AirportSim.run_routes, hupd, run_handler, List.foldlM_cons, bind, Except.bind]

/-- Claim C8 witness: the amended statement applied to `simC8` with the
empty planner mapping. -/
theorem C8_missing_entry_silent_until_replay_witness :
    (AirportSim.update_routes simC8 []).handlers.head? = some { hC8 with route := none } ∧
    (AirportSim.update_routes simC8 []).run_routes = .error .typeError :=
  C8_missing_entry_silent_until_replay simC8 [] hC8 [] rfl rfl

/-- Claim C9 (confirmed): the baseline solver routes the single handler
A then B; replay starts the clock at A's actual time 720 (12:00), the
handler leaves A at 725 (12:05) holding the 10 bags, arrives at B at 735
(12:15), which is before 840 (14:00), so the delivery succeeds and the
missed-baggage ratio is 0; with B's actual time at 730 (12:10) the 735
arrival is late, the bags stay held, and the ratio is 1. -/
theorem C9_end_to_end_scenario :
    SequentialSolver.solve simC9 = .ok [(RouteKey.name "h", some ["A", "B"])] ∧
    runStep airC9 simC9.schedule
      { time := none, prev_flight := none, bm := simC9.baggage_matrix, handler := h9r } "A" =
      .ok { time := some 725, prev_flight := some fA9,
            bm := { matrix := [], initial_baggages := 10 },
            handler := { h9r with baggages := some [("B", 10)] } } ∧
    runStep airC9 simC9.schedule
      { time := some 725, prev_flight := some fA9,
        bm := { matrix := [], initial_baggages := 10 },
        handler := { h9r with baggages := some [("B", 10)] } } "B" =
      .ok { time := some 735, prev_flight := some fB9,
            bm := { matrix := [], initial_baggages := 10 },
            handler := { h9r with baggages := some [] } } ∧
    (735 : ℚ) < 840 ∧
    pipeline simC9 = .ok 0 ∧
    pipeline simC9late = .ok 1 := by
  with_unfolding_all decide

/-- Claim C10 (confirmed): reading the ledger's outstanding entries is a
total operation — for any origin it returns the stored row (empty for an
unknown origin) as a value, never an error — and the read (including the
`defaultdict` insertion of an empty row for an unknown origin) leaves both
the ledger's total and its recorded initial total unchanged; in this pure
embedding the returned row is a value, so no mutation of it can ever affect
the ledger. -/
theorem C10_getitem_total_function (bm : BaggageMatrix) (s : String) :
    (bm.getitem s).2 = (aget bm.matrix s).getD [] ∧
    (bm.getitem s).1.len = bm.len ∧
    (bm.getitem s).1.initial_baggages = bm.initial_baggages := by
  unfold BaggageMatrix.getitem
  cases hg : aget bm.matrix s with
  | some row => simp [hg]
  | none => simp [hg, BaggageMatrix.len, List.foldl_append, dsum]
